import Mathlib

/-!
Verification of the medical-camp backend core against its specification.

This file gives a shallow embedding, in Lean, of the tenant-isolation guard,
the visitor/visit/consultation lifecycle, the Telegram notification dispatch
functions and the chat-link webhook of the repository, together with theorems
settling the specification claims about them.  Persistence is modelled as
explicit lists of rows; fallible external calls (database, Telegram provider)
are modelled by explicit outcome parameters.  Machine strings are Lean
strings; entity primary keys are natural numbers standing for the generated
UUIDs; timestamps are natural numbers.
-/

namespace MedicalCamp

/-! ## Roles, statuses and basic enums (src/models) -/

/-- `UserRole` from src/models/User.ts. -/
inductive UserRole
  | ADMIN
  | CAMP_HEAD
  | DOCTOR
deriving DecidableEq, Repr

/-- `VisitStatus` from src/models/Visit.ts. -/
inductive VisitStatus
  | REGISTERED
  | IN_PROGRESS
  | COMPLETED
  | CANCELLED
deriving DecidableEq, Repr

/-- `MessageType` from src/models/WhatsAppMessageLog.ts. -/
inductive MessageType
  | REGISTRATION
  | POST_CONSULTATION
  | CONSULTATION_COMPLETE
  | APPOINTMENT_REMINDER
  | CUSTOM
deriving DecidableEq, Repr

/-- `MessageStatus` from src/models/WhatsAppMessageLog.ts. -/
inductive MessageStatus
  | PENDING
  | SENT
  | FAILED
deriving DecidableEq, Repr

/-! ## JavaScript truthiness helpers

The request fields `req.params.campId`, `req.body?.campId`, ... are either
absent (`undefined`, modelled as `none`) or strings, and JavaScript `||`
treats the empty string as falsy.  `jsStr?` collapses an absent-or-empty
string to `none`. -/

/-- An optional string viewed through JavaScript truthiness: `none` and the
empty string are both falsy. -/
def jsStr? : Option String → Option String
  | none => none
  | some s => if s = "" then none else some s

/-- JavaScript `a || b` on an optional string `a` and a string `b`
(used for `visitor.telegramChatId || visitor.phone`). -/
def jsOrStr (a : Option String) (b : String) : String :=
  match jsStr? a with
  | some s => s
  | none => b

/-- JavaScript `!!a` of an optional string (used for `!!visitor.telegramChatId`). -/
def jsTruthy (a : Option String) : Bool :=
  (jsStr? a).isSome

/-- JavaScript `s.trim()`: strip leading and trailing whitespace (structural
recursion over the character list, so that concrete values compute). -/
def jsTrim (s : String) : String :=
  ⟨((s.data.dropWhile Char.isWhitespace).reverse.dropWhile Char.isWhitespace).reverse⟩

/-! ## Tenant isolation guard (`enforceCampIsolation`, src/middleware/auth.ts) -/

/-- The authenticated principal attached to the request by the `authenticate`
middleware: `{ id, role, campId? }` decoded from the JWT. -/
structure Identity where
  id : String
  role : UserRole
  campId : Option String
deriving DecidableEq, Repr

/-- The decision of the guard middleware.  `next()` is `allow`; the four
deny variants are the guard's 401/400/400/403 rejections. -/
inductive GuardResult
  | allow
  | denyAuthRequired
  | denyMissingTenant
  | denyMalformedTenant
  | denyTenantMismatch
deriving DecidableEq, Repr

/-- Whether a character matches `[0-9a-f]` case-insensitively (`/i` flag on
the guard's UUID regular expression). -/
def hexDigit (c : Char) : Bool :=
  c.isDigit || ('a' ≤ c && c ≤ 'f') || ('A' ≤ c && c ≤ 'F')

/-- Whether a character matches `[1-5]` (the UUID version digit). -/
def versionDigit (c : Char) : Bool :=
  '1' ≤ c && c ≤ '5'

/-- Whether a character matches `[89ab]` case-insensitively (the UUID
variant digit). -/
def variantDigit (c : Char) : Bool :=
  c = '8' || c = '9' || c = 'a' || c = 'b' || c = 'A' || c = 'B'

/-- Split a character list into the groups separated by `-`. -/
def splitOnDash : List Char → List (List Char)
  | [] => [[]]
  | c :: cs =>
    if c = '-' then [] :: splitOnDash cs
    else
      match splitOnDash cs with
      | [] => [[c]]
      | g :: gs => (c :: g) :: gs

/-- The guard's UUID shape check
`/^[0-9a-f]{8}-[0-9a-f]{4}-[1-5][0-9a-f]{3}-[89ab][0-9a-f]{3}-[0-9a-f]{12}$/i`.
Hex digits cannot be `-`, so splitting on `-` is equivalent to the anchored
regular expression. -/
def uuidShape (s : String) : Bool :=
  match splitOnDash s.data with
  | [a, b, c, d, e] =>
    a.length = 8 && a.all hexDigit &&
    b.length = 4 && b.all hexDigit &&
    (match c with
     | v :: rest => rest.length = 3 && versionDigit v && rest.all hexDigit
     | [] => false) &&
    (match d with
     | v :: rest => rest.length = 3 && variantDigit v && rest.all hexDigit
     | [] => false) &&
    e.length = 12 && e.all hexDigit
  | _ => false

/-- `req.params.campId || req.body?.campId || req.query?.campId`: the first
truthy (present and non-empty) candidate; `none` when all are falsy (which
is exactly when the guard's `!requestedCampId` test fires). -/
def extractCampId (pathC bodyC queryC : Option String) : Option String :=
  match jsStr? pathC with
  | some s => some s
  | none =>
    match jsStr? bodyC with
    | some s => some s
    | none => jsStr? queryC

/-- `enforceCampIsolation` from src/middleware/auth.ts, as a pure decision
function of the identity and the three camp-id request sources. -/
def enforceCampIsolation (user : Option Identity)
    (pathC bodyC queryC : Option String) : GuardResult :=
  match user with
  | none => .denyAuthRequired
  | some u =>
    if u.role = .ADMIN then .allow
    else
      match extractCampId pathC bodyC queryC with
      | none => .denyMissingTenant
      | some cid =>
        if !uuidShape cid then .denyMalformedTenant
        else if u.campId ≠ some cid then .denyTenantMismatch
        else .allow

/-! ## Patient-id formatting (registerVisitor, src/controllers/publicController.ts)

`String(count + 1).padStart(4, '0')` prefixed with the upper-cased camp slug.
JavaScript `String(n)` is the decimal representation; we embed it as a
fuel-based structural recursion so that concrete values reduce by `rfl`. -/

/-- Decimal digit list of `n` (most significant first), with explicit fuel.
One digit is emitted per unit of fuel, and `n` itself is always enough fuel. -/
def natStrGo : Nat → Nat → List Char
  | 0, _ => []
  | fuel + 1, n =>
    if n < 10 then [Nat.digitChar n]
    else natStrGo fuel (n / 10) ++ [Nat.digitChar (n % 10)]

/-- JavaScript `String(n)` for a natural number: its decimal digits. -/
def natStr (n : Nat) : List Char :=
  natStrGo (n + 1) n

/-- JavaScript `padStart(4, '0')` on a digit list. -/
def padStart4 (cs : List Char) : List Char :=
  List.replicate (4 - cs.length) '0' ++ cs

/-- The patient id minted by `registerVisitor`:
`` `${camp.uniqueSlug.toUpperCase()}-${String(n).padStart(4, '0')}` ``. -/
def fmtPatientId (slug : String) (n : Nat) : String :=
  ⟨slug.data.map Char.toUpper ++ '-' :: padStart4 (natStr n)⟩

/-- Reading a digit list back as a number, digit by digit.  This is a proof
device: it is a left inverse of `natStr` (even after zero padding), which
yields injectivity of the minted patient ids. -/
def parseDec (cs : List Char) : Nat :=
  cs.foldl (fun a c => a * 10 + (c.toNat - 48)) 0

theorem digitChar_toNat {d : Nat} (h : d < 10) : (Nat.digitChar d).toNat = 48 + d := by
  interval_cases d <;> rfl

theorem parseDec_natStrGo : ∀ fuel n, n < fuel → parseDec (natStrGo fuel n) = n := by
  intro fuel
  induction fuel with
  | zero => intro n h; omega
  | succ f ih =>
    intro n h
    by_cases h10 : n < 10
    · simp only [natStrGo, if_pos h10, parseDec, List.foldl_cons, List.foldl_nil]
      rw [digitChar_toNat h10]
      omega
    · have hdiv : n / 10 < n := Nat.div_lt_self (by omega) (by omega)
      have hfuel : n / 10 < f := by omega
      simp only [natStrGo, if_neg h10, parseDec, List.foldl_append,
        List.foldl_cons, List.foldl_nil]
      have := ih (n / 10) hfuel
      simp only [parseDec] at this
      rw [this, digitChar_toNat (Nat.mod_lt n (by omega))]
      omega

theorem parseDec_natStr (n : Nat) : parseDec (natStr n) = n :=
  parseDec_natStrGo (n + 1) n (Nat.lt_succ_self n)

theorem parseDec_replicate_zero (k : Nat) (cs : List Char) :
    parseDec (List.replicate k '0' ++ cs) = parseDec cs := by
  induction k with
  | zero => simp
  | succ m ih =>
    simpa [parseDec, List.replicate_succ] using ih

theorem parseDec_padStart4_natStr (n : Nat) :
    parseDec (padStart4 (natStr n)) = n := by
  rw [padStart4, parseDec_replicate_zero, parseDec_natStr]

/-- Minted patient ids are injective in the sequence number (for a fixed
slug): padding and decimal formatting lose no information. -/
theorem fmtPatientId_injective (slug : String) {m n : Nat}
    (h : fmtPatientId slug m = fmtPatientId slug n) : m = n := by
  have hdata : slug.data.map Char.toUpper ++ '-' :: padStart4 (natStr m)
      = slug.data.map Char.toUpper ++ '-' :: padStart4 (natStr n) :=
    congrArg String.data h
  have htail := List.append_cancel_left hdata
  have hpad : padStart4 (natStr m) = padStart4 (natStr n) := by
    injection htail
  calc m = parseDec (padStart4 (natStr m)) := (parseDec_padStart4_natStr m).symm
    _ = parseDec (padStart4 (natStr n)) := by rw [hpad]
    _ = n := parseDec_padStart4_natStr n

/-! ## Entities and database state (src/models, TypeORM repositories)

Primary keys are modelled as naturals drawn from a fresh-id counter; `Db`
is the persistent state the repositories act on. -/

/-- `Camp` entity (src/models/Camp.ts); only the fields the core reads. -/
structure CampRec where
  id : Nat
  uniqueSlug : String
  name : String
  venue : String
  hospitalName : String
  startTime : Nat
deriving DecidableEq, Repr

/-- Demographic fields of the registration request body. -/
structure Demographics where
  name : String
  phone : String
  age : Nat
  gender : String
  address : Option String
  city : Option String
  district : Option String
  symptoms : Option String
  existingConditions : Option String
  allergies : Option String
deriving DecidableEq, Repr

/-- `Visitor` entity (src/models/Visitor.ts). -/
structure VisitorRec where
  id : Nat
  campId : Nat
  patientIdPerCamp : String
  name : String
  phone : String
  age : Nat
  gender : String
  address : Option String
  city : Option String
  district : Option String
  symptoms : Option String
  existingConditions : Option String
  allergies : Option String
  qrCode : String
  telegramChatId : Option String
deriving DecidableEq, Repr

/-- `Visit` entity (src/models/Visit.ts). -/
structure VisitRec where
  id : Nat
  campId : Nat
  visitorId : Nat
  doctorId : Option Nat
  status : VisitStatus
  consultationTime : Option Nat
  createdAt : Nat
deriving DecidableEq, Repr

/-- `Prescription` interface (src/models/Consultation.ts). -/
structure Prescription where
  name : String
  dosage : String
  frequency : String
  duration : String
deriving DecidableEq, Repr

/-- `Consultation` entity (src/models/Consultation.ts). -/
structure ConsultationRec where
  id : Nat
  visitId : Nat
  chiefComplaints : String
  clinicalNotes : Option String
  diagnosis : String
  treatmentPlan : String
  prescriptions : List Prescription
  followUpAdvice : Option String
  isInsured : Option Bool
deriving DecidableEq, Repr

/-- `WhatsAppMessageLog` entity (src/models/WhatsAppMessageLog.ts); camp and
visitor ids are optional because `sendCustomTelegram` may omit them. -/
structure LogRec where
  campId : Option Nat
  visitorId : Option Nat
  type : MessageType
  message : String
  status : MessageStatus
  sentAt : Option Nat
  errorMessage : Option String
deriving DecidableEq, Repr

/-- The persistent state: one list per repository, plus the fresh-id source
standing for UUID generation. -/
structure Db where
  visitors : List VisitorRec
  visits : List VisitRec
  consultations : List ConsultationRec
  logs : List LogRec
  nextId : Nat
deriving DecidableEq, Repr

/-! ## Visitor registration (`registerVisitor`, src/controllers/publicController.ts) -/

/-- `visitorRepo.count({ where: { campId } })`. -/
def countVisitors (db : Db) (campId : Nat) : Nat :=
  (db.visitors.filter (fun v => v.campId = campId)).length

/-- The QR payload `JSON.stringify({ campId, patientId })`; the base64 PNG
data-URL encoding of it is abstracted to the payload itself. -/
def qrPayload (campId : Nat) (patientId : String) : String :=
  toString campId ++ ":" ++ patientId

/-- The core of `registerVisitor` after the camp has been resolved by slug:
counts the camp's visitors, mints `UPPER(slug)-NNNN` from count + 1, creates
the `Visitor` and then a `REGISTERED` `Visit`.  Returns the new state and the
two created rows.  (The trailing notification is modelled separately, see
`registerVisitorEndpoint`.) -/
def registerVisitor (db : Db) (camp : CampRec) (d : Demographics) (now : Nat) :
    Db × VisitorRec × VisitRec :=
  let count := countVisitors db camp.id
  let patientIdPerCamp := fmtPatientId camp.uniqueSlug (count + 1)
  let visitor : VisitorRec :=
    { id := db.nextId
      campId := camp.id
      patientIdPerCamp := patientIdPerCamp
      name := d.name
      phone := d.phone
      age := d.age
      gender := d.gender
      address := d.address
      city := d.city
      district := d.district
      symptoms := d.symptoms
      existingConditions := d.existingConditions
      allergies := d.allergies
      qrCode := qrPayload camp.id patientIdPerCamp
      telegramChatId := none }
  let visit : VisitRec :=
    { id := db.nextId + 1
      campId := camp.id
      visitorId := visitor.id
      doctorId := none
      status := .REGISTERED
      consultationTime := none
      createdAt := now }
  ({ db with
      visitors := db.visitors ++ [visitor]
      visits := db.visits ++ [visit]
      nextId := db.nextId + 2 },
   visitor, visit)

/-- Sequential (single-threaded) registrations of a batch of visitors in the
same camp. -/
def registerN (db : Db) (camp : CampRec) (ds : List Demographics) (now : Nat) : Db :=
  ds.foldl (fun s d => (registerVisitor s camp d now).1) db

/-- The patient ids of a camp's visitors, in insertion order. -/
def campPatientIds (db : Db) (campId : Nat) : List String :=
  (db.visitors.filter (fun v => v.campId = campId)).map (fun v => v.patientIdPerCamp)

/-! ## Consultation save (`saveConsultation`, src/controllers/doctorController.ts) -/

/-- The consultation request body fields; `prescriptions` is `none` when the
body carries no array (`Array.isArray` fails). -/
structure ConsultFields where
  chiefComplaints : String
  clinicalNotes : Option String
  diagnosis : String
  treatmentPlan : String
  prescriptions : Option (List Prescription)
  followUpAdvice : Option String
  isInsured : Option Bool
deriving DecidableEq, Repr

/-- `prescriptions.filter((rx) => rx.name && rx.name.trim() !== '')` with the
`Array.isArray` fallback to `[]`. -/
def filterPrescriptions (p : Option (List Prescription)) : List Prescription :=
  match p with
  | some l => l.filter (fun rx => rx.name != "" && jsTrim rx.name != "")
  | none => []

/-- Outcome of `saveConsultation` (after express-validator passed). -/
inductive SaveResult
  | visitNotFound
  | ok (c : ConsultationRec)
deriving DecidableEq, Repr

/-- `consultationRepo.update(consultation.id, { ...fields })`: the existing
row with the request's field values written over it. -/
def consUpdate (f : ConsultFields) (c0 : ConsultationRec) : ConsultationRec :=
  { c0 with
      chiefComplaints := f.chiefComplaints
      clinicalNotes := f.clinicalNotes
      diagnosis := f.diagnosis
      treatmentPlan := f.treatmentPlan
      prescriptions := filterPrescriptions f.prescriptions
      followUpAdvice := f.followUpAdvice
      isInsured := f.isInsured }

/-- `consultationRepo.create({ visitId, ...fields })` with a fresh id. -/
def consNew (idN visitId : Nat) (f : ConsultFields) : ConsultationRec :=
  { id := idN
    visitId := visitId
    chiefComplaints := f.chiefComplaints
    clinicalNotes := f.clinicalNotes
    diagnosis := f.diagnosis
    treatmentPlan := f.treatmentPlan
    prescriptions := filterPrescriptions f.prescriptions
    followUpAdvice := f.followUpAdvice
    isInsured := f.isInsured }

/-- The visit mutation of `saveConsultation`: status `COMPLETED`, acting
doctor, consultation time set to now. -/
def visitComplete (doctorId now : Nat) (v : VisitRec) : VisitRec :=
  { v with
      status := .COMPLETED
      doctorId := some doctorId
      consultationTime := some now }

/-- `saveConsultation`: looks the visit up by `{ id: visitId, campId }`
(404 and no mutation when absent), upserts the consultation row found by
`{ visitId }`, then marks the visit `COMPLETED` with the acting doctor and
the current time.  The trailing notification is modelled separately, see
`saveConsultationEndpoint`. -/
def saveConsultation (db : Db) (campId : Nat) (doctorId : Nat) (now : Nat)
    (visitId : Nat) (f : ConsultFields) : Db × SaveResult :=
  match db.visits.find? (fun v => v.id = visitId && v.campId = campId) with
  | none => (db, .visitNotFound)
  | some _ =>
    let upsert : Db × ConsultationRec :=
      match db.consultations.find? (fun c => c.visitId = visitId) with
      | some c0 =>
        ({ db with
            consultations := db.consultations.map
              (fun c => if c.id = c0.id then consUpdate f c0 else c) },
         consUpdate f c0)
      | none =>
        ({ db with
            consultations := db.consultations ++ [consNew db.nextId visitId f]
            nextId := db.nextId + 1 },
         consNew db.nextId visitId f)
    let db1 := upsert.1
    let db2 :=
      { db1 with
          visits := db1.visits.map (fun (v : VisitRec) =>
            if v.id = visitId && v.campId = campId then
              visitComplete doctorId now v
            else v) }
    (db2, .ok upsert.2)

/-! ## Telegram service (src/services/telegramService.ts)

The provider (axios call to the Telegram API) is abstracted by a single
boolean `providerOk` in the environment: `sendTelegramMessage` and
`sendTelegramPhoto` catch every provider error internally and return a
boolean, so their observable behaviour is a total function of the
environment and of the resolved recipient. -/

/-- Process environment and provider behaviour for the Telegram service. -/
structure TelegramEnv where
  botToken : Option String
  testChatId : Option String
  providerOk : Bool
deriving DecidableEq, Repr

/-- A character of the class `[0-9\s\-\(\)]` of the phone-number test. -/
def phoneNumChar (c : Char) : Bool :=
  c.isDigit || c.isWhitespace || c = '-' || c = '(' || c = ')'

/-- `/^[\+]?[0-9\s\-\(\)]+$/.test(s)`: the heuristic deciding that a
recipient string is a phone number rather than a Telegram chat id. -/
def isPhoneNumber (s : String) : Bool :=
  match s.data with
  | '+' :: rest => rest ≠ [] && rest.all phoneNumChar
  | cs => cs ≠ [] && cs.all phoneNumChar

/-- `sendTelegramMessage` (src/services/telegramService.ts): returns `false`
without calling the provider when the bot token is unset, or when the
recipient looks like a phone number and no test chat id is configured
(the no-deliverable-address case); otherwise returns the provider outcome.
All provider errors are caught inside and surface only as `false`. -/
def sendTelegramMessage (env : TelegramEnv) (chatIdOrPhoneNumber : String) : Bool :=
  if jsStr? env.botToken = none then false
  else if isPhoneNumber chatIdOrPhoneNumber then
    match jsStr? env.testChatId with
    | some _ => env.providerOk
    | none => false
  else env.providerOk

/-- `sendTelegramPhoto`: identical recipient resolution and error handling
as `sendTelegramMessage`, with a photo payload. -/
def sendTelegramPhoto (env : TelegramEnv) (chatIdOrPhoneNumber : String) : Bool :=
  sendTelegramMessage env chatIdOrPhoneNumber

/-- `sendRegistrationTelegram`: logs one `REGISTRATION` entry whose status is
`SENT` exactly when `sendTelegramPhoto` succeeded, `FAILED` (with the error
detail) otherwise.  `message` is the rendered MarkdownV2 caption, passed in
because its locale-dependent date rendering is outside the model. -/
def sendRegistrationTelegram (env : TelegramEnv) (now : Nat) (db : Db)
    (camp : CampRec) (visitor : VisitorRec) (caption : String) : Db :=
  let recipient := jsOrStr visitor.telegramChatId visitor.phone
  let isUsingChatId := jsTruthy visitor.telegramChatId
  let success := sendTelegramPhoto env recipient
  let log : LogRec :=
    { campId := some camp.id
      visitorId := some visitor.id
      type := .REGISTRATION
      message := caption
      status := if success then .SENT else .FAILED
      sentAt := if success then some now else none
      errorMessage :=
        if success then none
        else some (if isUsingChatId then "Failed to send message to chat ID"
                   else "No Telegram chat ID available. User needs to message the bot first.") }
  { db with logs := db.logs ++ [log] }

/-- `sendConsultationCompleteTelegram`: logs one `CONSULTATION_COMPLETE`
entry, `SENT` exactly when `sendTelegramMessage` succeeded. -/
def sendConsultationCompleteTelegram (env : TelegramEnv) (now : Nat) (db : Db)
    (camp : CampRec) (visitor : VisitorRec) (message : String) : Db :=
  let recipient := jsOrStr visitor.telegramChatId visitor.phone
  let isUsingChatId := jsTruthy visitor.telegramChatId
  let success := sendTelegramMessage env recipient
  let log : LogRec :=
    { campId := some camp.id
      visitorId := some visitor.id
      type := .CONSULTATION_COMPLETE
      message := message
      status := if success then .SENT else .FAILED
      sentAt := if success then some now else none
      errorMessage :=
        if success then none
        else some (if isUsingChatId then "Failed to send message to chat ID"
                   else "No Telegram chat ID available. User needs to message the bot first.") }
  { db with logs := db.logs ++ [log] }

/-- `sendAppointmentReminderTelegram`: the source wraps the send in
`try`/`catch` and sets the status in the `try` branch without inspecting the
returned boolean; since `sendTelegramMessage` catches its own errors and
never throws, the `catch` branch is unreachable and the entry is logged
`SENT` regardless of the send outcome. -/
def sendAppointmentReminderTelegram (env : TelegramEnv) (now : Nat) (db : Db)
    (camp : CampRec) (visitor : VisitorRec) (message : String) : Db :=
  let _ := sendTelegramMessage env visitor.phone
  let log : LogRec :=
    { campId := some camp.id
      visitorId := some visitor.id
      type := .APPOINTMENT_REMINDER
      message := message
      status := .SENT
      sentAt := some now
      errorMessage := none }
  { db with logs := db.logs ++ [log] }

/-- `sendCustomTelegram`: same shape as the reminder — the boolean outcome of
`sendTelegramMessage` is discarded and the entry is logged `SENT`. -/
def sendCustomTelegram (env : TelegramEnv) (now : Nat) (db : Db)
    (phoneNumber : String) (message : String)
    (campId : Option Nat) (visitorId : Option Nat) : Db :=
  let _ := sendTelegramMessage env phoneNumber
  let log : LogRec :=
    { campId := campId
      visitorId := visitorId
      type := .CUSTOM
      message := message
      status := .SENT
      sentAt := some now
      errorMessage := none }
  { db with logs := db.logs ++ [log] }

/-! ## Triggering operations and their fire-and-forget notifications

`registerVisitor` and `saveConsultation` invoke the notification path through
helpers (`sendRegistrationConfirmation`, `sendConsultationNotification`) that
wrap the whole dispatch in `try { ... } catch { ... }`.  To reason about an
arbitrary dispatch — including one that throws part-way through — the
endpoints below take the dispatch as a function returning the state it leaves
behind together with whether it threw; the `catch` ignores the outcome and
keeps the state. -/

/-- What a dispatch invocation did: the state it left behind (including any
log rows it managed to write before returning or throwing), and whether it
completed or threw. -/
structure DispatchEffect where
  newDb : Db
  threw : Bool
deriving DecidableEq, Repr

/-- A dispatch only touches the message-log table: it never mutates
visitors, visits, consultations or the id source.  This holds of every
notification function in the source (they only create `WhatsAppMessageLog`
rows). -/
def LogsOnly (dispatch : Db → DispatchEffect) : Prop :=
  ∀ db, (dispatch db).newDb.visitors = db.visitors
    ∧ (dispatch db).newDb.visits = db.visits
    ∧ (dispatch db).newDb.consultations = db.consultations
    ∧ (dispatch db).newDb.nextId = db.nextId

/-- The 201 response of `registerVisitor`. -/
structure RegResponse where
  visitorId : Nat
  patientId : String
  name : String
  success : Bool
deriving DecidableEq, Repr

/-- `registerVisitor` end to end: core mutation, then
`await sendRegistrationConfirmation(camp, visitor)` whose `try`/`catch`
swallows any dispatch failure, then the 201 response. -/
def registerVisitorEndpoint (db : Db) (camp : CampRec) (d : Demographics)
    (now : Nat) (dispatch : Db → VisitorRec → DispatchEffect) : Db × RegResponse :=
  let core := registerVisitor db camp d now
  let eff := dispatch core.1 core.2.1
  (eff.newDb,
   { visitorId := core.2.1.id
     patientId := core.2.1.patientIdPerCamp
     name := core.2.1.name
     success := true })

/-- The response of `saveConsultation`. -/
inductive ConsultResponse
  | notFound
  | saved (c : ConsultationRec)
deriving DecidableEq, Repr

/-- `saveConsultation` end to end: core mutation, then
`await sendConsultationNotification(...)` whose `try`/`catch` swallows any
dispatch failure, then the success response. -/
def saveConsultationEndpoint (db : Db) (campId : Nat) (doctorId : Nat) (now : Nat)
    (visitId : Nat) (f : ConsultFields)
    (dispatch : Db → DispatchEffect) : Db × ConsultResponse :=
  match saveConsultation db campId doctorId now visitId f with
  | (_, .visitNotFound) => (db, .notFound)
  | (db1, .ok c) =>
    let eff := dispatch db1
    (eff.newDb, .saved c)

/-- `sendRegistrationConfirmation` (src/controllers/publicController.ts) as a
dispatch effect: skips entirely when the bot token is unset, otherwise runs
`sendRegistrationTelegram`; in the model the latter is total, so nothing
throws. -/
def sendRegistrationConfirmation (env : TelegramEnv) (now : Nat) (camp : CampRec)
    (caption : String) (db : Db) (visitor : VisitorRec) : DispatchEffect :=
  if jsStr? env.botToken = none then { newDb := db, threw := false }
  else { newDb := sendRegistrationTelegram env now db camp visitor caption, threw := false }

/-! ## Telegram webhook (src/routes/telegram.ts)

The handler is wrapped in `asyncHandler`, so an exception thrown inside it is
forwarded to the global `errorHandler` middleware, which answers with the
error status (500 for a plain repository error).  Repository failures are
injected through two fault flags. -/

/-- The inbound update: `message.from.id`, `message.text` when present. -/
structure TelegramUpdate where
  fromId : Option String
  text : Option String
deriving DecidableEq, Repr

/-- The HTTP answer the provider sees. -/
structure HttpResp where
  status : Nat
  ok : Bool
deriving DecidableEq, Repr

/-- Set the matched visitor's chat id (`visitor.telegramChatId = chatId;
await visitorRepo.save(visitor)`), modelled as an update keyed by the row
id. -/
def linkChat (db : Db) (visitorId : Nat) (chatId : String) : Db :=
  { db with
      visitors := db.visitors.map (fun v =>
        if v.id = visitorId then { v with telegramChatId := some chatId } else v) }

/-- The `POST /webhook` handler body.  `findFault`/`saveFault` inject a
thrown repository error at the visitor lookup / save; the resulting
`Except` is what `asyncHandler` passes on.  Replies to the user go through
`sendTelegramMessage`, which never throws (its boolean result is ignored by
the handler). -/
def webhookHandler (env : TelegramEnv) (db : Db) (upd : TelegramUpdate)
    (findFault saveFault : Bool) : Except String (Db × HttpResp) :=
  match jsStr? upd.fromId, jsStr? upd.text with
  | some chatId, some text =>
    let userMessage := jsTrim text
    if userMessage = "/start" then
      let _ := sendTelegramMessage env chatId
      .ok (db, { status := 200, ok := true })
    else if findFault then .error "database error during visitor lookup"
    else
      match db.visitors.find? (fun v =>
          v.phone = userMessage || v.patientIdPerCamp = userMessage) with
      | some visitor =>
        if jsTruthy visitor.telegramChatId && visitor.telegramChatId ≠ some chatId then
          let _ := sendTelegramMessage env chatId
          .ok (db, { status := 200, ok := true })
        else if saveFault then .error "database error during visitor save"
        else
          let db1 := linkChat db visitor.id chatId
          let _ := sendTelegramMessage env chatId
          .ok (db1, { status := 200, ok := true })
      | none =>
        let _ := sendTelegramMessage env chatId
        .ok (db, { status := 200, ok := true })
  | _, _ => .ok (db, { status := 200, ok := true })

/-- The webhook endpoint as the provider sees it: `asyncHandler` catches a
thrown error and hands it to `errorHandler`, which answers with status 500
and an error body (`ok` is absent, i.e. falsy). -/
def webhookEndpoint (env : TelegramEnv) (db : Db) (upd : TelegramUpdate)
    (findFault saveFault : Bool) : Db × HttpResp :=
  match webhookHandler env db upd findFault saveFault with
  | .ok r => r
  | .error _ => (db, { status := 500, ok := false })

/-! ## QR check-in (`getVisitorByQR`, src/controllers/doctorController.ts) -/

/-- Outcome of `getVisitorByQR`. -/
inductive QRResult
  | visitorNotFound
  | crossTenantVisitor
  | ok (visit : VisitRec)
deriving DecidableEq, Repr

/-- `visitRepo.findOne({ where: { visitorId, campId }, order: { createdAt:
'DESC' } })`: the matching visit with the greatest creation time. -/
def latestVisit (visits : List VisitRec) (visitorId campId : Nat) : Option VisitRec :=
  (visits.filter (fun v => v.visitorId = visitorId && v.campId = campId)).foldl
    (fun acc v =>
      match acc with
      | none => some v
      | some w => if w.createdAt < v.createdAt then some v else some w)
    none

/-- `visitRepo.create({ campId, visitorId, status: REGISTERED })` with a
fresh id, as created by the QR check-in. -/
def newVisit (idN campId visitorId now : Nat) : VisitRec :=
  { id := idN
    campId := campId
    visitorId := visitorId
    doctorId := none
    status := .REGISTERED
    consultationTime := none
    createdAt := now }

/-- `getVisitorByQR`: finds the visitor by id alone, rejects a visitor of a
different camp (`403`), returns the latest visit of the visitor in the
doctor's camp, creating a fresh `REGISTERED` one only when none exists at
all. -/
def getVisitorByQR (db : Db) (doctorCampId : Option Nat) (visitorId : Nat)
    (now : Nat) : Db × QRResult :=
  match db.visitors.find? (fun v => v.id = visitorId) with
  | none => (db, .visitorNotFound)
  | some visitor =>
    if some visitor.campId ≠ doctorCampId then (db, .crossTenantVisitor)
    else
      match latestVisit db.visits visitor.id visitor.campId with
      | some visit => (db, .ok visit)
      | none =>
        ({ db with
            visits := db.visits ++ [newVisit db.nextId visitor.campId visitor.id now]
            nextId := db.nextId + 1 },
         .ok (newVisit db.nextId visitor.campId visitor.id now))

/-! ## Login (src/controllers/authController.ts) -/

/-- `User` entity (src/models/User.ts); only the fields `login` reads. -/
structure UserRec where
  id : Nat
  role : UserRole
  email : String
  passwordHash : String
  campId : Option Nat
  isActive : Bool
deriving DecidableEq, Repr

/-- Outcome of `login`; a successful login issues a token signing
`{ id, role, campId }` of the matched user. -/
inductive LoginResult
  | invalidCredentials
  | campNotFound
  | token (id : Nat) (role : UserRole) (campId : Option Nat)
deriving DecidableEq, Repr

/-- `login`: when `campSlug` is falsy the user is looked up by
`{ email, isActive: true }` alone (no role restriction); otherwise the camp
is resolved by slug and the user by `{ email, campId, isActive: true }`.
`verify` is the `bcrypt.compare` capability. -/
def login (verify : String → String → Bool) (users : List UserRec)
    (camps : List CampRec) (email password : String)
    (campSlug : Option String) : LoginResult :=
  match jsStr? campSlug with
  | none =>
    match users.find? (fun u => u.email = email && u.isActive) with
    | none => .invalidCredentials
    | some u =>
      if verify password u.passwordHash then .token u.id u.role u.campId
      else .invalidCredentials
  | some slug =>
    match camps.find? (fun c => c.uniqueSlug = slug) with
    | none => .campNotFound
    | some camp =>
      match users.find? (fun u => u.email = email && u.campId = some camp.id && u.isActive) with
      | none => .invalidCredentials
      | some u =>
        if verify password u.passwordHash then .token u.id u.role u.campId
        else .invalidCredentials

/-! ## Shapes of stored identifiers

The webhook's chat-linking lookup is keyed on free text matching a stored
phone number or patient id.  Reachable states only hold phones accepted by
the public registration validator `/^[0-9+\-\s()]{6,20}$/` and patient ids
minted by `fmtPatientId`; these shapes (which in particular exclude the
control command `/start`) are the well-formedness hypotheses of C7. -/

/-- A character of the validator class `[0-9+\-\s()]`. -/
def phoneShapeChar (c : Char) : Bool :=
  c.isDigit || c = '+' || c = '-' || c.isWhitespace || c = '(' || c = ')'

/-- The public registration phone validator `/^[0-9+\-\s()]{6,20}$/`. -/
def phoneShape (s : String) : Bool :=
  6 ≤ s.data.length && s.data.length ≤ 20 && s.data.all phoneShapeChar

/-- A character that can occur in a minted patient id: an upper-cased slug
character (`[A-Z0-9_-]` after upper-casing) or a digit of the zero-padded
sequence number. -/
def pidChar (c : Char) : Bool :=
  c.isUpper || c.isDigit || c = '_' || c = '-'

/-! ## Observable content of a consultation row -/

/-- The clinical payload of a consultation row (everything except its
primary key and visit key). -/
def consultPayload (c : ConsultationRec) :
    String × Option String × String × String × List Prescription × Option String × Option Bool :=
  (c.chiefComplaints, c.clinicalNotes, c.diagnosis, c.treatmentPlan,
   c.prescriptions, c.followUpAdvice, c.isInsured)

/-- The payload a consultation request asks to persist (prescriptions
already filtered as the controller does). -/
def payloadOf (f : ConsultFields) :
    String × Option String × String × String × List Prescription × Option String × Option Bool :=
  (f.chiefComplaints, f.clinicalNotes, f.diagnosis, f.treatmentPlan,
   filterPrescriptions f.prescriptions, f.followUpAdvice, f.isInsured)

/-- Spec-side definition (for comparison with the code): §4.2 calls a Visit
"open" when it is still awaiting its consultation, i.e. `REGISTERED` or
`IN_PROGRESS` rather than terminal `COMPLETED`/`CANCELLED`. -/
def specOpenVisit (v : VisitRec) : Bool :=
  v.status = .REGISTERED || v.status = .IN_PROGRESS

/-! ## Concrete fixtures used to instantiate the theorems -/

/-- A camp with slug `winter-clinic`. -/
def campW : CampRec :=
  { id := 1, uniqueSlug := "winter-clinic", name := "Winter Clinic",
    venue := "Town Hall", hospitalName := "General Hospital", startTime := 100 }

/-- The registration request of the end-to-end scenario (visitor `Asha`). -/
def demogW : Demographics :=
  { name := "Asha", phone := "+1555000111", age := 30, gender := "Female",
    address := none, city := none, district := none, symptoms := none,
    existingConditions := none, allergies := none }

/-- An empty database. -/
def emptyDb : Db :=
  { visitors := [], visits := [], consultations := [], logs := [], nextId := 0 }

/-- The `Asha` visitor row after her first registration. -/
def visitorW : VisitorRec :=
  { id := 5, campId := 1, patientIdPerCamp := "WINTER-CLINIC-0001", name := "Asha",
    phone := "+1555000111", age := 30, gender := "Female", address := none,
    city := none, district := none, symptoms := none, existingConditions := none,
    allergies := none, qrCode := "", telegramChatId := none }

/-- Her open visit. -/
def visitW : VisitRec :=
  { id := 10, campId := 1, visitorId := 5, doctorId := none,
    status := .REGISTERED, consultationTime := none, createdAt := 50 }

/-- A database with one registered visitor and an open visit. -/
def dbW : Db :=
  { visitors := [visitorW], visits := [visitW], consultations := [], logs := [],
    nextId := 20 }

/-- A first consultation request (one blank-named prescription entry to be
filtered out). -/
def fieldsW1 : ConsultFields :=
  { chiefComplaints := "fever", clinicalNotes := none, diagnosis := "flu",
    treatmentPlan := "rest",
    prescriptions := some [⟨"paracetamol", "500mg", "twice daily", "3 days"⟩, ⟨" ", "", "", ""⟩],
    followUpAdvice := none, isInsured := none }

/-- A second consultation request with updated values. -/
def fieldsW2 : ConsultFields :=
  { chiefComplaints := "fever", clinicalNotes := some "re-examined",
    diagnosis := "viral fever", treatmentPlan := "rest and fluids",
    prescriptions := some [⟨"ibuprofen", "200mg", "thrice daily", "2 days"⟩],
    followUpAdvice := some "review in 3 days", isInsured := some true }

/-- A Telegram environment with a bot token but no test fallback chat id. -/
def envNoFallbackW : TelegramEnv :=
  { botToken := some "bot-token", testChatId := none, providerOk := true }

/-- A visit already completed (terminal, not "open"). -/
def completedVisitW : VisitRec :=
  { id := 11, campId := 1, visitorId := 5, doctorId := some 7,
    status := .COMPLETED, consultationTime := some 60, createdAt := 50 }

/-- A database where `Asha` has exactly one visit, already completed. -/
def dbCompletedW : Db :=
  { visitors := [visitorW], visits := [completedVisitW], consultations := [],
    logs := [], nextId := 30 }

/-- The webhook update `"+1555000111"` from channel `999`. -/
def updW : TelegramUpdate :=
  { fromId := some "999", text := some "+1555000111" }

/-- An active doctor account. -/
def doctorUserW : UserRec :=
  { id := 3, role := .DOCTOR, email := "doc@example.com",
    passwordHash := "hash123", campId := some 1, isActive := true }

/-- The real registration dispatch, in the environment with no fallback
address (the visitor has no linked chat id, so the send is skipped). -/
def dispatchRegW : Db → VisitorRec → DispatchEffect :=
  sendRegistrationConfirmation envNoFallbackW 0 campW "registration caption"

/-- A registration dispatch that throws without writing anything. -/
def dispatchRegThrowW : Db → VisitorRec → DispatchEffect :=
  fun s _ => { newDb := s, threw := true }

/-- The real consultation-complete dispatch in the no-fallback environment. -/
def dispatchConsW : Db → DispatchEffect :=
  fun s =>
    { newDb := sendConsultationCompleteTelegram envNoFallbackW 0 s campW visitorW "summary"
      threw := false }

/-- A consultation dispatch that throws without writing anything. -/
def dispatchConsThrowW : Db → DispatchEffect :=
  fun s => { newDb := s, threw := true }

/-! ## Claim theorems -/

/-- Claim C1: for every authenticated request the tenant isolation guard
allows an `ADMIN` identity unconditionally (for any requested camp id,
including a non-existent one); for a non-`ADMIN` identity it denies with
`MissingTenant` when the requested camp id (path, body, query — first
non-empty) is absent, denies with `MalformedTenant` when it is not a valid
identifier, and otherwise allows exactly when the requested camp id equals
the identity's home camp id (denying with `TenantMismatch` otherwise). -/
theorem claim_C1_tenant_isolation (u : Identity) (p b q : Option String) :
    (u.role = .ADMIN → enforceCampIsolation (some u) p b q = .allow)
    ∧ (u.role ≠ .ADMIN →
        (extractCampId p b q = none →
          enforceCampIsolation (some u) p b q = .denyMissingTenant)
        ∧ (∀ cid, extractCampId p b q = some cid → uuidShape cid = false →
            enforceCampIsolation (some u) p b q = .denyMalformedTenant)
        ∧ (∀ cid, extractCampId p b q = some cid → uuidShape cid = true →
            (enforceCampIsolation (some u) p b q = .allow ↔ u.campId = some cid)
            ∧ (u.campId ≠ some cid →
                enforceCampIsolation (some u) p b q = .denyTenantMismatch))) := by
  constructor
  · intro h
    simp [enforceCampIsolation, h]
  · intro hrole
    refine ⟨?_, ?_, ?_⟩
    · intro hnone
      simp [enforceCampIsolation, hrole, hnone]
    · intro cid hcid hbad
      simp [enforceCampIsolation, hrole, hcid, hbad]
    · intro cid hcid hok
      by_cases hc : u.campId = some cid
      · constructor
        · simp [enforceCampIsolation, hrole, hcid, hok, hc]
        · intro hne
          exact absurd hc hne
      · constructor
        · simp [enforceCampIsolation, hrole, hcid, hok, hc]
        · intro _
          simp [enforceCampIsolation, hrole, hcid, hok, hc]

/-- Concrete instantiation of C1: an admin is allowed through with a
non-existent (even malformed) camp id, and a doctor homed in one camp is
denied on another camp's id. -/
theorem claim_C1_tenant_isolation_witness :
    enforceCampIsolation (some ⟨"u1", .ADMIN, none⟩)
      (some "no-such-camp") none none = .allow
    ∧ enforceCampIsolation
        (some ⟨"u2", .DOCTOR, some "123e4567-e89b-12d3-a456-426614174000"⟩)
        (some "ffffffff-ffff-4fff-afff-ffffffffffff") none none
        = .denyTenantMismatch := by
  constructor
  · exact (claim_C1_tenant_isolation ⟨"u1", .ADMIN, none⟩
      (some "no-such-camp") none none).1 rfl
  · exact (((claim_C1_tenant_isolation
      ⟨"u2", .DOCTOR, some "123e4567-e89b-12d3-a456-426614174000"⟩
      (some "ffffffff-ffff-4fff-afff-ffffffffffff") none none).2
      (by decide)).2.2 "ffffffff-ffff-4fff-afff-ffffffffffff"
      (by decide) (by decide)).2 (by decide)

theorem campPatientIds_registerVisitor (db : Db) (camp : CampRec)
    (d : Demographics) (now : Nat) :
    campPatientIds (registerVisitor db camp d now).1 camp.id
      = campPatientIds db camp.id
        ++ [fmtPatientId camp.uniqueSlug (countVisitors db camp.id + 1)] := by
  simp [campPatientIds, registerVisitor, List.filter_append]

theorem countVisitors_registerVisitor (db : Db) (camp : CampRec)
    (d : Demographics) (now : Nat) :
    countVisitors (registerVisitor db camp d now).1 camp.id
      = countVisitors db camp.id + 1 := by
  simp [countVisitors, registerVisitor, List.filter_append]

theorem registerN_patientIds (camp : CampRec) (now : Nat) :
    ∀ (ds : List Demographics) (db : Db),
    campPatientIds (registerN db camp ds now) camp.id
      = campPatientIds db camp.id
        ++ (List.range ds.length).map
            (fun i => fmtPatientId camp.uniqueSlug (countVisitors db camp.id + i + 1)) := by
  intro ds
  induction ds with
  | nil => intro db; simp [registerN]
  | cons d ds ih =>
    intro db
    have hstep : registerN db camp (d :: ds) now
        = registerN (registerVisitor db camp d now).1 camp ds now := by
      simp [registerN]
    rw [hstep, ih, campPatientIds_registerVisitor, countVisitors_registerVisitor]
    simp only [List.length_cons]
    rw [List.range_succ_eq_map, List.map_cons, List.map_map]
    have harith : (fun i => fmtPatientId camp.uniqueSlug (countVisitors db camp.id + i + 1))
        ∘ Nat.succ
        = fun i => fmtPatientId camp.uniqueSlug (countVisitors db camp.id + 1 + i + 1) := by
      funext i
      simp only [Function.comp_apply]
      congr 1
      omega
    rw [harith]
    simp [List.append_assoc]

/-- Claim C2: registration allocates the per-camp patient id from the count
of existing visitors plus one, formatted `UPPER(slug)-NNNN`; starting from a
camp with no visitors, `n` single-threaded registrations mint exactly the
ids with sequence numbers `1, 2, ..., n` — strictly increasing, gap-free and
pairwise distinct — each registration creates a `REGISTERED` visit, and the
first id in a camp with slug `winter-clinic` is `WINTER-CLINIC-0001`. -/
theorem claim_C2_registration_ids (db : Db) (camp : CampRec)
    (ds : List Demographics) (d : Demographics) (now : Nat)
    (h0 : countVisitors db camp.id = 0) :
    campPatientIds (registerN db camp ds now) camp.id
      = (List.range ds.length).map (fun i => fmtPatientId camp.uniqueSlug (i + 1))
    ∧ (campPatientIds (registerN db camp ds now) camp.id).Nodup
    ∧ (registerVisitor db camp d now).2.1.patientIdPerCamp
        = fmtPatientId camp.uniqueSlug (countVisitors db camp.id + 1)
    ∧ (registerVisitor db camp d now).2.2.status = .REGISTERED
    ∧ (camp.uniqueSlug = "winter-clinic" →
        (registerVisitor db camp d now).2.1.patientIdPerCamp = "WINTER-CLINIC-0001") := by
  have hempty : campPatientIds db camp.id = [] := by
    have : (db.visitors.filter (fun v => v.campId = camp.id)).length = 0 := h0
    simp [campPatientIds, List.length_eq_zero.mp this]
  have hids : campPatientIds (registerN db camp ds now) camp.id
      = (List.range ds.length).map (fun i => fmtPatientId camp.uniqueSlug (i + 1)) := by
    rw [registerN_patientIds, hempty, h0]
    simp
  refine ⟨hids, ?_, rfl, rfl, ?_⟩
  · rw [hids]
    refine List.Nodup.map ?_ (List.nodup_range _)
    intro i j hij
    have := fmtPatientId_injective camp.uniqueSlug hij
    omega
  · intro hslug
    show fmtPatientId camp.uniqueSlug (countVisitors db camp.id + 1) = _
    rw [hslug, h0]
    decide

/-- Concrete instantiation of C2: two registrations in an empty
`winter-clinic` camp. -/
theorem claim_C2_registration_ids_witness :
    countVisitors emptyDb campW.id = 0
    ∧ (campPatientIds (registerN emptyDb campW [demogW, demogW] 0) campW.id
        = (List.range ([demogW, demogW] : List Demographics).length).map
            (fun i => fmtPatientId campW.uniqueSlug (i + 1))
      ∧ (campPatientIds (registerN emptyDb campW [demogW, demogW] 0) campW.id).Nodup
      ∧ (registerVisitor emptyDb campW demogW 0).2.1.patientIdPerCamp
          = fmtPatientId campW.uniqueSlug (countVisitors emptyDb campW.id + 1)
      ∧ (registerVisitor emptyDb campW demogW 0).2.2.status = .REGISTERED
      ∧ (campW.uniqueSlug = "winter-clinic" →
          (registerVisitor emptyDb campW demogW 0).2.1.patientIdPerCamp
            = "WINTER-CLINIC-0001")) :=
  ⟨rfl, claim_C2_registration_ids emptyDb campW [demogW, demogW] demogW 0 rfl⟩

theorem filter_eq_of_find?_unique {α} (p : α → Bool) :
    ∀ (l : List α) (a : α), l.find? p = some a →
      (l.filter p).length ≤ 1 → l.filter p = [a] := by
  intro l
  induction l with
  | nil => intro a h; simp at h
  | cons x xs ih =>
    intro a hfind hlen
    by_cases hx : p x
    · rw [List.find?_cons_of_pos _ hx] at hfind
      injection hfind with hax
      rw [List.filter_cons_of_pos hx] at hlen ⊢
      simp only [List.length_cons] at hlen
      have : xs.filter p = [] := List.length_eq_zero.mp (by omega)
      rw [this, hax]
    · rw [List.find?_cons_of_neg _ hx] at hfind
      rw [List.filter_cons_of_neg hx] at hlen ⊢
      exact ih a hfind hlen

theorem find?_map_ite {α} (p : α → Bool) (upd : α → α)
    (hupd : ∀ a, p a = true → p (upd a) = true) :
    ∀ l : List α,
      (l.map (fun a => if p a then upd a else a)).find? p = (l.find? p).map upd := by
  intro l
  induction l with
  | nil => rfl
  | cons x xs ih =>
    by_cases hx : p x
    · simp only [List.map_cons, if_pos hx]
      rw [List.find?_cons_of_pos _ (hupd x hx), List.find?_cons_of_pos _ hx]
      rfl
    · simp only [List.map_cons, if_neg hx]
      rw [List.find?_cons_of_neg _ hx, List.find?_cons_of_neg _ hx]
      exact ih

theorem filter_map_update {α} (p : α → Bool) (key : α → Nat) (c1 : α)
    (hc1 : p c1 = true) :
    ∀ (l : List α) (c0 : α),
      l.find? p = some c0 →
      (l.filter p).length ≤ 1 →
      (l.map key).Nodup →
      (l.map (fun c => if key c = key c0 then c1 else c)).filter p = [c1] := by
  intro l
  induction l with
  | nil => intro c0 h; simp at h
  | cons x xs ih =>
    intro c0 hfind hlen hnodup
    simp only [List.map_cons, List.nodup_cons, List.mem_map] at hnodup
    by_cases hx : p x
    · rw [List.find?_cons_of_pos _ hx] at hfind
      injection hfind with hc0
      subst hc0
      rw [List.filter_cons_of_pos hx] at hlen
      simp only [List.length_cons] at hlen
      have hxsnil : xs.filter p = [] := List.length_eq_zero.mp (by omega)
      have hxs : xs.map (fun c => if key c = key x then c1 else c) = xs := by
        conv_rhs => rw [← List.map_id xs]
        apply List.map_congr_left
        intro c hc
        have hne : ¬ key c = key x := fun h => hnodup.1 ⟨c, hc, h⟩
        simp [hne]
      simp only [List.map_cons, hxs]
      simp [hc1, hxsnil]
    · rw [List.find?_cons_of_neg _ hx] at hfind
      rw [List.filter_cons_of_neg hx] at hlen
      have hmem : c0 ∈ xs := List.mem_of_find?_eq_some hfind
      have hxid : ¬ key x = key c0 := fun h => hnodup.1 ⟨c0, hmem, h.symm⟩
      simp only [List.map_cons, if_neg hxid]
      rw [List.filter_cons_of_neg hx]
      exact ih c0 hfind hlen hnodup.2

/-- Claim C3: for a visit of the requested camp, `saveConsultation` upserts
the single consultation row keyed by the visit id — afterwards exactly one
row carries the visit id and its payload is the request's —, marks the visit
`COMPLETED` with the acting doctor and the current time, and persists exactly
the prescription entries whose name is non-empty after trimming; when the
visit id does not belong to the camp it fails with `VisitNotFound` and the
state is untouched. -/
theorem claim_C3_saveConsultation_upsert (db : Db) (campId doctorId now visitId : Nat)
    (f : ConsultFields) :
    (db.visits.find? (fun v => v.id = visitId && v.campId = campId) = none →
      saveConsultation db campId doctorId now visitId f = (db, .visitNotFound))
    ∧ (∀ visit,
        db.visits.find? (fun v => v.id = visitId && v.campId = campId) = some visit →
        (db.consultations.filter (fun c => c.visitId = visitId)).length ≤ 1 →
        (db.consultations.map (fun c => c.id)).Nodup →
        ((saveConsultation db campId doctorId now visitId f).1.consultations.filter
            (fun c => c.visitId = visitId)).map consultPayload = [payloadOf f]
        ∧ (saveConsultation db campId doctorId now visitId f).1.visits.find?
            (fun v => v.id = visitId && v.campId = campId)
            = some { visit with
                status := .COMPLETED
                doctorId := some doctorId
                consultationTime := some now }
        ∧ ∃ c, (saveConsultation db campId doctorId now visitId f).2 = .ok c
            ∧ consultPayload c = payloadOf f)
    ∧ (∀ l, f.prescriptions = some l →
        filterPrescriptions f.prescriptions
          = l.filter (fun rx => jsTrim rx.name != "")) := by
  refine ⟨?_, ?_, ?_⟩
  · intro hnone
    simp [saveConsultation, hnone]
  · intro visit hv hlen hnodup
    have hfindvis :
        (db.visits.map (fun v =>
            if v.id = visitId && v.campId = campId then visitComplete doctorId now v
            else v)).find? (fun v => v.id = visitId && v.campId = campId)
          = (db.visits.find? (fun v => v.id = visitId && v.campId = campId)).map
              (visitComplete doctorId now) :=
      find?_map_ite _ _ (fun v h => by simpa [visitComplete] using h) db.visits
    cases hfind : db.consultations.find? (fun c => c.visitId = visitId) with
    | none =>
      have hnil : db.consultations.filter (fun c => c.visitId = visitId) = [] :=
        List.filter_eq_nil_iff.mpr (List.find?_eq_none.mp hfind)
      refine ⟨?_, ?_, ?_⟩
      · simp only [saveConsultation, hv, hfind]
        rw [List.filter_append, hnil]
        simp [consNew, consultPayload, payloadOf]
      · simp only [saveConsultation, hv, hfind]
        rw [hfindvis, hv]
        rfl
      · exact ⟨consNew db.nextId visitId f, by simp [saveConsultation, hv, hfind], rfl⟩
    | some c0 =>
      have hc0 : c0.visitId = visitId := by simpa using List.find?_some hfind
      have hc1 : (decide ((consUpdate f c0).visitId = visitId)) = true := by
        simp [consUpdate, hc0]
      have hfc : ((db.consultations.map
            (fun c => if c.id = c0.id then consUpdate f c0 else c)).filter
            (fun c => c.visitId = visitId)) = [consUpdate f c0] :=
        filter_map_update (fun c => decide (c.visitId = visitId)) (fun c => c.id)
          (consUpdate f c0) hc1 db.consultations c0 hfind hlen hnodup
      refine ⟨?_, ?_, ?_⟩
      · simp only [saveConsultation, hv, hfind]
        rw [hfc]
        simp [consUpdate, consultPayload, payloadOf]
      · simp only [saveConsultation, hv, hfind]
        rw [hfindvis, hv]
        rfl
      · exact ⟨consUpdate f c0, by simp [saveConsultation, hv, hfind], rfl⟩
  · intro l hl
    rw [hl]
    show (l.filter fun rx => rx.name != "" && jsTrim rx.name != "") = _
    apply List.filter_congr
    intro rx _
    by_cases h : rx.name = ""
    · rw [h]; decide
    · have hb : (rx.name != "") = true := by simpa using h
      rw [hb, Bool.true_and]

/-- Concrete instantiation of C3: saving a consultation for Asha's open
visit in camp 1. -/
theorem claim_C3_saveConsultation_upsert_witness :
    dbW.visits.find? (fun v => v.id = 10 && v.campId = 1) = some visitW
    ∧ (((saveConsultation dbW 1 7 200 10 fieldsW1).1.consultations.filter
          (fun c => c.visitId = 10)).map consultPayload = [payloadOf fieldsW1]
      ∧ (saveConsultation dbW 1 7 200 10 fieldsW1).1.visits.find?
          (fun v => v.id = 10 && v.campId = 1)
          = some { visitW with
              status := .COMPLETED
              doctorId := some 7
              consultationTime := some 200 }
      ∧ ∃ c, (saveConsultation dbW 1 7 200 10 fieldsW1).2 = .ok c
          ∧ consultPayload c = payloadOf fieldsW1) :=
  ⟨by decide,
   (claim_C3_saveConsultation_upsert dbW 1 7 200 10 fieldsW1).2.1 visitW
     (by decide) (by decide) (by decide)⟩

theorem saveConsultation_create_eq (db : Db) (campId doctorId now visitId : Nat)
    (f : ConsultFields) (visit : VisitRec)
    (hv : db.visits.find? (fun v => v.id = visitId && v.campId = campId) = some visit)
    (hnone : db.consultations.find? (fun c => c.visitId = visitId) = none) :
    saveConsultation db campId doctorId now visitId f
      = ({ db with
            consultations := db.consultations ++ [consNew db.nextId visitId f]
            nextId := db.nextId + 1
            visits := db.visits.map (fun v =>
              if v.id = visitId && v.campId = campId then visitComplete doctorId now v
              else v) },
         .ok (consNew db.nextId visitId f)) := by
  simp only [saveConsultation, hv, hnone]

theorem saveConsultation_update_eq (db : Db) (campId doctorId now visitId : Nat)
    (f : ConsultFields) (visit : VisitRec) (c0 : ConsultationRec)
    (hv : db.visits.find? (fun v => v.id = visitId && v.campId = campId) = some visit)
    (hfind : db.consultations.find? (fun c => c.visitId = visitId) = some c0) :
    saveConsultation db campId doctorId now visitId f
      = ({ db with
            consultations := db.consultations.map
              (fun c => if c.id = c0.id then consUpdate f c0 else c)
            visits := db.visits.map (fun v =>
              if v.id = visitId && v.campId = campId then visitComplete doctorId now v
              else v) },
         .ok (consUpdate f c0)) := by
  simp only [saveConsultation, hv, hfind]

/-- Claim C4: calling `saveConsultation` twice for the same visit with
different field values (and timestamps) leaves exactly one consultation row
for that visit id — its payload is the second call's —, adds exactly one row
over the two calls, and leaves the visit `COMPLETED` with its consultation
time equal to the second call's timestamp. -/
theorem claim_C4_saveConsultation_idempotent (db : Db)
    (campId d1 d2 t1 t2 visitId : Nat) (f1 f2 : ConsultFields) (visit : VisitRec)
    (hv : db.visits.find? (fun v => v.id = visitId && v.campId = campId) = some visit)
    (hnone : db.consultations.find? (fun c => c.visitId = visitId) = none)
    (hids : (db.consultations.map (fun c => c.id)).Nodup)
    (hfresh : ∀ c ∈ db.consultations, c.id < db.nextId) :
    (((saveConsultation (saveConsultation db campId d1 t1 visitId f1).1
        campId d2 t2 visitId f2).1.consultations.filter
        (fun c => c.visitId = visitId)).map consultPayload = [payloadOf f2])
    ∧ (saveConsultation (saveConsultation db campId d1 t1 visitId f1).1
        campId d2 t2 visitId f2).1.consultations.length
        = db.consultations.length + 1
    ∧ (saveConsultation (saveConsultation db campId d1 t1 visitId f1).1
        campId d2 t2 visitId f2).1.visits.find?
        (fun v => v.id = visitId && v.campId = campId)
        = some { visit with
            status := .COMPLETED
            doctorId := some d2
            consultationTime := some t2 } := by
  have h1 := saveConsultation_create_eq db campId d1 t1 visitId f1 visit hv hnone
  rw [h1]
  have hv2 : (db.visits.map (fun v =>
      if v.id = visitId && v.campId = campId then visitComplete d1 t1 v
      else v)).find? (fun v => v.id = visitId && v.campId = campId)
      = some (visitComplete d1 t1 visit) := by
    rw [find?_map_ite _ _ (fun v h => by simpa [visitComplete] using h) db.visits, hv]
    rfl
  have hpc1 : (decide ((consNew db.nextId visitId f1).visitId = visitId)) = true := by
    simp [consNew]
  have hfind2 : (db.consultations ++ [consNew db.nextId visitId f1]).find?
      (fun c => c.visitId = visitId) = some (consNew db.nextId visitId f1) := by
    rw [List.find?_append, hnone]
    simp [consNew]
  have h2 := saveConsultation_update_eq
    { db with
        consultations := db.consultations ++ [consNew db.nextId visitId f1]
        nextId := db.nextId + 1
        visits := db.visits.map (fun v =>
          if v.id = visitId && v.campId = campId then visitComplete d1 t1 v
          else v) }
    campId d2 t2 visitId f2 (visitComplete d1 t1 visit) (consNew db.nextId visitId f1)
    hv2 hfind2
  rw [h2]
  have hids2 : ((db.consultations ++ [consNew db.nextId visitId f1]).map
      (fun c => c.id)).Nodup := by
    rw [List.map_append, List.nodup_append]
    refine ⟨hids, by simp, ?_⟩
    intro i hi
    rcases List.mem_map.mp hi with ⟨c, hc, hci⟩
    have hlt : c.id < db.nextId := hfresh c hc
    have hci2 : c.id = i := hci
    simp only [List.map_cons, List.map_nil, List.mem_singleton, consNew]
    omega
  have hlen2 : ((db.consultations ++ [consNew db.nextId visitId f1]).filter
      (fun c => c.visitId = visitId)).length ≤ 1 := by
    rw [List.filter_append, List.filter_eq_nil_iff.mpr (List.find?_eq_none.mp hnone)]
    simp [consNew]
  have hpc2 : (decide ((consUpdate f2 (consNew db.nextId visitId f1)).visitId
      = visitId)) = true := by
    simp [consUpdate, consNew]
  have hfc := filter_map_update (fun c => decide (c.visitId = visitId))
    (fun c => c.id) (consUpdate f2 (consNew db.nextId visitId f1)) hpc2
    (db.consultations ++ [consNew db.nextId visitId f1])
    (consNew db.nextId visitId f1) hfind2 hlen2 hids2
  refine ⟨?_, ?_, ?_⟩
  · rw [hfc]
    simp [consUpdate, consNew, consultPayload, payloadOf]
  · simp
  · rw [find?_map_ite _ _ (fun v h => by simpa [visitComplete] using h) _, hv2]
    rfl

/-- Concrete instantiation of C4: two saves for Asha's visit, the second
with updated diagnosis text and timestamp. -/
theorem claim_C4_saveConsultation_idempotent_witness :
    dbW.visits.find? (fun v => v.id = 10 && v.campId = 1) = some visitW
    ∧ ((((saveConsultation (saveConsultation dbW 1 7 200 10 fieldsW1).1
            1 8 300 10 fieldsW2).1.consultations.filter
            (fun c => c.visitId = 10)).map consultPayload = [payloadOf fieldsW2])
      ∧ (saveConsultation (saveConsultation dbW 1 7 200 10 fieldsW1).1
            1 8 300 10 fieldsW2).1.consultations.length
          = dbW.consultations.length + 1
      ∧ (saveConsultation (saveConsultation dbW 1 7 200 10 fieldsW1).1
            1 8 300 10 fieldsW2).1.visits.find?
            (fun v => v.id = 10 && v.campId = 1)
          = some { visitW with
              status := .COMPLETED
              doctorId := some 8
              consultationTime := some 300 }) :=
  ⟨by decide,
   claim_C4_saveConsultation_idempotent dbW 1 7 8 200 300 10 fieldsW1 fieldsW2 visitW
     (by decide) (by decide) (by decide) (by decide)⟩

theorem saveConsultation_found_ok (db : Db) (campId doctorId now visitId : Nat)
    (f : ConsultFields) (visit : VisitRec)
    (hv : db.visits.find? (fun v => v.id = visitId && v.campId = campId) = some visit) :
    ∃ c db1, saveConsultation db campId doctorId now visitId f = (db1, .ok c) := by
  cases hfind : db.consultations.find? (fun c => c.visitId = visitId) with
  | none =>
    exact ⟨_, _, saveConsultation_create_eq db campId doctorId now visitId f visit hv hfind⟩
  | some c0 =>
    exact ⟨_, _, saveConsultation_update_eq db campId doctorId now visitId f visit c0 hv hfind⟩

theorem sendRegistrationConfirmation_logsOnly (env : TelegramEnv) (now : Nat)
    (camp : CampRec) (caption : String) (v : VisitorRec) :
    LogsOnly (fun s => sendRegistrationConfirmation env now camp caption s v) := by
  intro db
  by_cases h : jsStr? env.botToken = none <;>
    simp [sendRegistrationConfirmation, sendRegistrationTelegram, h]

theorem sendConsultationCompleteTelegram_logsOnly (env : TelegramEnv) (now : Nat)
    (camp : CampRec) (visitor : VisitorRec) (msg : String) :
    LogsOnly (fun s =>
      { newDb := sendConsultationCompleteTelegram env now s camp visitor msg
        threw := false }) := by
  intro db
  simp [sendConsultationCompleteTelegram]

/-- Claim C5: the outcome of the notification dispatch — sent, skipped,
failed, or thrown, including the no-linked-chat-id/no-fallback case — never
affects the triggering operation: for any two dispatch behaviours that only
write message logs, registration and consultation save produce identical
responses, the same entity mutations, and report success. -/
theorem claim_C5_dispatch_isolated (db : Db) (camp : CampRec) (d : Demographics)
    (campId doctorId now visitId : Nat) (f : ConsultFields)
    (dr1 dr2 : Db → VisitorRec → DispatchEffect) (dc1 dc2 : Db → DispatchEffect)
    (hr1 : ∀ v, LogsOnly (fun s => dr1 s v))
    (hc1 : LogsOnly dc1) :
    (registerVisitorEndpoint db camp d now dr1).2
        = (registerVisitorEndpoint db camp d now dr2).2
    ∧ (registerVisitorEndpoint db camp d now dr1).2.success = true
    ∧ (registerVisitorEndpoint db camp d now dr1).1.visitors
        = (registerVisitor db camp d now).1.visitors
    ∧ (registerVisitorEndpoint db camp d now dr1).1.visits
        = (registerVisitor db camp d now).1.visits
    ∧ (saveConsultationEndpoint db campId doctorId now visitId f dc1).2
        = (saveConsultationEndpoint db campId doctorId now visitId f dc2).2
    ∧ (∀ visit,
        db.visits.find? (fun v => v.id = visitId && v.campId = campId) = some visit →
        (∃ c, (saveConsultationEndpoint db campId doctorId now visitId f dc1).2
            = .saved c)
        ∧ (saveConsultationEndpoint db campId doctorId now visitId f dc1).1.visitors
            = (saveConsultation db campId doctorId now visitId f).1.visitors
        ∧ (saveConsultationEndpoint db campId doctorId now visitId f dc1).1.visits
            = (saveConsultation db campId doctorId now visitId f).1.visits
        ∧ (saveConsultationEndpoint db campId doctorId now visitId f dc1).1.consultations
            = (saveConsultation db campId doctorId now visitId f).1.consultations) := by
  refine ⟨rfl, rfl, (hr1 (registerVisitor db camp d now).2.1 (registerVisitor db camp d now).1).1,
    (hr1 (registerVisitor db camp d now).2.1 (registerVisitor db camp d now).1).2.1, ?_, ?_⟩
  · show (match saveConsultation db campId doctorId now visitId f with
      | (_, .visitNotFound) => (db, ConsultResponse.notFound)
      | (db1, .ok c) => ((dc1 db1).newDb, ConsultResponse.saved c)).2
      = (match saveConsultation db campId doctorId now visitId f with
      | (_, .visitNotFound) => (db, ConsultResponse.notFound)
      | (db1, .ok c) => ((dc2 db1).newDb, ConsultResponse.saved c)).2
    rcases saveConsultation db campId doctorId now visitId f with ⟨db1, r⟩
    cases r <;> rfl
  · intro visit hv
    rcases saveConsultation_found_ok db campId doctorId now visitId f visit hv
      with ⟨c, db1, heq⟩
    refine ⟨⟨c, ?_⟩, ?_, ?_, ?_⟩ <;>
      simp [saveConsultationEndpoint, heq, (hc1 db1).1, (hc1 db1).2.1, (hc1 db1).2.2.1]

/-- Concrete instantiation of C5: the real no-fallback dispatch against a
dispatch that throws, for Asha's registration and consultation. -/
theorem claim_C5_dispatch_isolated_witness :
    (registerVisitorEndpoint dbW campW demogW 0 dispatchRegW).2
        = (registerVisitorEndpoint dbW campW demogW 0 dispatchRegThrowW).2
    ∧ (registerVisitorEndpoint dbW campW demogW 0 dispatchRegW).2.success = true
    ∧ (registerVisitorEndpoint dbW campW demogW 0 dispatchRegW).1.visitors
        = (registerVisitor dbW campW demogW 0).1.visitors
    ∧ (registerVisitorEndpoint dbW campW demogW 0 dispatchRegW).1.visits
        = (registerVisitor dbW campW demogW 0).1.visits
    ∧ (saveConsultationEndpoint dbW 1 7 0 10 fieldsW1 dispatchConsW).2
        = (saveConsultationEndpoint dbW 1 7 0 10 fieldsW1 dispatchConsThrowW).2
    ∧ (∀ visit,
        dbW.visits.find? (fun v => v.id = 10 && v.campId = 1) = some visit →
        (∃ c, (saveConsultationEndpoint dbW 1 7 0 10 fieldsW1 dispatchConsW).2
            = .saved c)
        ∧ (saveConsultationEndpoint dbW 1 7 0 10 fieldsW1 dispatchConsW).1.visitors
            = (saveConsultation dbW 1 7 0 10 fieldsW1).1.visitors
        ∧ (saveConsultationEndpoint dbW 1 7 0 10 fieldsW1 dispatchConsW).1.visits
            = (saveConsultation dbW 1 7 0 10 fieldsW1).1.visits
        ∧ (saveConsultationEndpoint dbW 1 7 0 10 fieldsW1 dispatchConsW).1.consultations
            = (saveConsultation dbW 1 7 0 10 fieldsW1).1.consultations) :=
  claim_C5_dispatch_isolated dbW campW demogW 1 7 0 10 fieldsW1
    dispatchRegW dispatchRegThrowW dispatchConsW dispatchConsThrowW
    (fun v => sendRegistrationConfirmation_logsOnly envNoFallbackW 0 campW
      "registration caption" v)
    (sendConsultationCompleteTelegram_logsOnly envNoFallbackW 0 campW visitorW "summary")

/-- Counterexample to C6 as frozen: on the appointment-reminder path the
provider send fails (`sendTelegramMessage` returns `false`: the recipient is
a phone number and no fallback chat id is configured), yet the single log
entry written is recorded `SENT` with no error detail — the reminder (and
custom-message) senders discard the boolean send result. -/
theorem claim_C6_dispatch_logging_counterexample :
    sendTelegramMessage envNoFallbackW visitorW.phone = false
    ∧ (sendAppointmentReminderTelegram envNoFallbackW 0 dbW campW visitorW
        "reminder").logs
      = [{ campId := some 1
           visitorId := some 5
           type := .APPOINTMENT_REMINDER
           message := "reminder"
           status := .SENT
           sentAt := some 0
           errorMessage := none }] := by
  constructor
  · decide
  · decide

/-- Claim C6, amended: every dispatch attempt of the four kinds writes
exactly one log entry regardless of outcome; the registration and
consultation-complete dispatches record `SENT` exactly when the provider
send succeeded and `FAILED` with an error detail exactly when it did not
(including the no-deliverable-address case); but the appointment-reminder
and custom dispatches record `SENT` unconditionally — a failed provider
send is still logged `SENT` there, because the boolean send result is
discarded and only a thrown exception (which the send helper never throws)
would reach their `FAILED` branch. -/
theorem claim_C6_dispatch_logging_amended (env : TelegramEnv) (db : Db)
    (camp : CampRec) (visitor : VisitorRec) (now : Nat) (msg phone : String)
    (cid vid : Option Nat) :
    (sendRegistrationTelegram env now db camp visitor msg).logs.length
        = db.logs.length + 1
    ∧ (sendConsultationCompleteTelegram env now db camp visitor msg).logs.length
        = db.logs.length + 1
    ∧ (sendAppointmentReminderTelegram env now db camp visitor msg).logs.length
        = db.logs.length + 1
    ∧ (sendCustomTelegram env now db phone msg cid vid).logs.length
        = db.logs.length + 1
    ∧ (∃ log, (sendRegistrationTelegram env now db camp visitor msg).logs
          = db.logs ++ [log]
        ∧ (log.status = .SENT
            ↔ sendTelegramPhoto env (jsOrStr visitor.telegramChatId visitor.phone) = true)
        ∧ (log.status = .FAILED
            ↔ sendTelegramPhoto env (jsOrStr visitor.telegramChatId visitor.phone) = false)
        ∧ (log.errorMessage = none
            ↔ sendTelegramPhoto env (jsOrStr visitor.telegramChatId visitor.phone) = true))
    ∧ (∃ log, (sendConsultationCompleteTelegram env now db camp visitor msg).logs
          = db.logs ++ [log]
        ∧ (log.status = .SENT
            ↔ sendTelegramMessage env (jsOrStr visitor.telegramChatId visitor.phone) = true)
        ∧ (log.status = .FAILED
            ↔ sendTelegramMessage env (jsOrStr visitor.telegramChatId visitor.phone) = false)
        ∧ (log.errorMessage = none
            ↔ sendTelegramMessage env (jsOrStr visitor.telegramChatId visitor.phone) = true))
    ∧ (∃ log, (sendAppointmentReminderTelegram env now db camp visitor msg).logs
          = db.logs ++ [log] ∧ log.status = .SENT)
    ∧ (∃ log, (sendCustomTelegram env now db phone msg cid vid).logs
          = db.logs ++ [log] ∧ log.status = .SENT) := by
  refine ⟨by simp [sendRegistrationTelegram], by simp [sendConsultationCompleteTelegram],
    by simp [sendAppointmentReminderTelegram], by simp [sendCustomTelegram],
    ?_, ?_, ⟨_, rfl, rfl⟩, ⟨_, rfl, rfl⟩⟩
  · cases hs : sendTelegramPhoto env (jsOrStr visitor.telegramChatId visitor.phone) with
    | false =>
      exact ⟨_, rfl, by simp [sendRegistrationTelegram, hs],
        by simp [sendRegistrationTelegram, hs], by simp [sendRegistrationTelegram, hs]⟩
    | true =>
      exact ⟨_, rfl, by simp [sendRegistrationTelegram, hs],
        by simp [sendRegistrationTelegram, hs], by simp [sendRegistrationTelegram, hs]⟩
  · cases hs : sendTelegramMessage env (jsOrStr visitor.telegramChatId visitor.phone) with
    | false =>
      exact ⟨_, rfl, by simp [sendConsultationCompleteTelegram, hs],
        by simp [sendConsultationCompleteTelegram, hs],
        by simp [sendConsultationCompleteTelegram, hs]⟩
    | true =>
      exact ⟨_, rfl, by simp [sendConsultationCompleteTelegram, hs],
        by simp [sendConsultationCompleteTelegram, hs],
        by simp [sendConsultationCompleteTelegram, hs]⟩

/-- Claim C7: first-linker-wins for the chat-link registry.  For an inbound
webhook message whose trimmed text matches a stored visitor's phone or
patient id (in a reachable state: phones have the registration validator's
shape and patient ids the minted shape, which both exclude the `/start`
command), a visitor already linked to a different channel id is left
untouched; an unlinked visitor, or one linked to the same channel id, gets
the sender's channel id; and replaying the same message leaves the state of
the first processing unchanged. -/
theorem claim_C7_chat_link_first_wins (env : TelegramEnv) (db : Db)
    (chatId text : String) (visitor : VisitorRec)
    (hcne : chatId ≠ "")
    (hphones : ∀ v ∈ db.visitors, phoneShape v.phone = true)
    (hpidc : ∀ v ∈ db.visitors, v.patientIdPerCamp.data.all pidChar = true)
    (hpidne : ∀ v ∈ db.visitors, v.patientIdPerCamp ≠ "")
    (hfound : db.visitors.find?
        (fun v => v.phone = jsTrim text || v.patientIdPerCamp = jsTrim text)
        = some visitor) :
    (∀ c, visitor.telegramChatId = some c → c ≠ "" → c ≠ chatId →
      webhookEndpoint env db ⟨some chatId, some text⟩ false false
        = (db, { status := 200, ok := true }))
    ∧ (visitor.telegramChatId = none ∨ visitor.telegramChatId = some chatId →
      (webhookEndpoint env db ⟨some chatId, some text⟩ false false).1
          = linkChat db visitor.id chatId
      ∧ (linkChat db visitor.id chatId).visitors.find?
          (fun v => v.phone = jsTrim text || v.patientIdPerCamp = jsTrim text)
          = some { visitor with telegramChatId := some chatId })
    ∧ webhookEndpoint env
        (webhookEndpoint env db ⟨some chatId, some text⟩ false false).1
        ⟨some chatId, some text⟩ false false
        = ((webhookEndpoint env db ⟨some chatId, some text⟩ false false).1,
           { status := 200, ok := true }) := by
  have hmem : visitor ∈ db.visitors := List.mem_of_find?_eq_some hfound
  have hm : visitor.phone = jsTrim text ∨ visitor.patientIdPerCamp = jsTrim text := by
    simpa using List.find?_some hfound
  have hshape : phoneShape (jsTrim text) = true
      ∨ ((jsTrim text).data.all pidChar = true ∧ jsTrim text ≠ "") := by
    rcases hm with h | h
    · exact Or.inl (h ▸ hphones visitor hmem)
    · exact Or.inr ⟨h ▸ hpidc visitor hmem, h ▸ hpidne visitor hmem⟩
  have hstart : jsTrim text ≠ "/start" := by
    rcases hshape with h | ⟨h, _⟩
    · intro he; rw [he] at h; exact absurd h (by decide)
    · intro he; rw [he] at h; exact absurd h (by decide)
  have htne : jsTrim text ≠ "" := by
    rcases hshape with h | ⟨_, h⟩
    · intro he; rw [he] at h; exact absurd h (by decide)
    · exact h
  have htext : jsStr? (some text) = some text := by
    have : text ≠ "" := by
      intro he
      exact htne (by rw [he]; rfl)
    simp [jsStr?, this]
  have hchat : jsStr? (some chatId) = some chatId := by simp [jsStr?, hcne]
  -- the linked lookup still finds the same visitor, now carrying the chat id
  have hlinkfind : (linkChat db visitor.id chatId).visitors.find?
      (fun v => v.phone = jsTrim text || v.patientIdPerCamp = jsTrim text)
      = some { visitor with telegramChatId := some chatId } := by
    have hcomp : ((fun v : VisitorRec =>
        decide (v.phone = jsTrim text) || decide (v.patientIdPerCamp = jsTrim text))
          ∘ (fun v : VisitorRec =>
            if v.id = visitor.id then { v with telegramChatId := some chatId } else v))
        = (fun v : VisitorRec =>
            decide (v.phone = jsTrim text) || decide (v.patientIdPerCamp = jsTrim text)) := by
      funext v
      by_cases hv : v.id = visitor.id <;> simp [hv]
    show ((db.visitors.map _).find? _) = _
    rw [List.find?_map, hcomp, hfound]
    simp
  -- relinking the same chat id is a no-op on the already-linked state
  have hll : linkChat (linkChat db visitor.id chatId) visitor.id chatId
      = linkChat db visitor.id chatId := by
    simp only [linkChat, List.map_map]
    congr 1
    apply List.map_congr_left
    intro v _
    by_cases hv : v.id = visitor.id <;> simp [hv]
  have hjn : jsTruthy (none : Option String) = false := rfl
  have hje : jsTruthy (some "") = false := rfl
  have htr : jsTruthy (some chatId) = true := by simp [jsTruthy, jsStr?, hcne]
  have hconfl : ∀ c, visitor.telegramChatId = some c → c ≠ "" → c ≠ chatId →
      webhookEndpoint env db ⟨some chatId, some text⟩ false false
        = (db, { status := 200, ok := true }) := by
    intro c hc hcne2 hne
    have hsome : some c ≠ some chatId := by simpa using hne
    have htrc : jsTruthy (some c) = true := by simp [jsTruthy, jsStr?, hcne2]
    simp [webhookEndpoint, webhookHandler, hchat, htext, hstart, hfound, hc,
      htrc, hsome]
  have hlink : visitor.telegramChatId = none ∨ visitor.telegramChatId = some chatId →
      webhookEndpoint env db ⟨some chatId, some text⟩ false false
        = (linkChat db visitor.id chatId, { status := 200, ok := true }) := by
    intro h
    rcases h with h | h
    · simp [webhookEndpoint, webhookHandler, hchat, htext, hstart, hfound, h, hjn]
    · simp [webhookEndpoint, webhookHandler, hchat, htext, hstart, hfound, h, htr]
  -- the second processing of the same message on the linked state is a no-op
  have hsecond : webhookEndpoint env (linkChat db visitor.id chatId)
      ⟨some chatId, some text⟩ false false
      = (linkChat db visitor.id chatId, { status := 200, ok := true }) := by
    simp [webhookEndpoint, webhookHandler, hchat, htext, hstart, hlinkfind,
      htr, hll]
  refine ⟨hconfl, ?_, ?_⟩
  · intro h
    exact ⟨by rw [hlink h], hlinkfind⟩
  · cases hstate : visitor.telegramChatId with
    | none =>
      rw [hlink (Or.inl hstate)]
      exact hsecond
    | some c =>
      by_cases hce : c = ""
      · subst hce
        have hempty : webhookEndpoint env db ⟨some chatId, some text⟩ false false
            = (linkChat db visitor.id chatId, { status := 200, ok := true }) := by
          simp [webhookEndpoint, webhookHandler, hchat, htext, hstart, hfound, hstate, hje]
        rw [hempty]
        exact hsecond
      · by_cases hcc : c = chatId
        · subst hcc
          rw [hlink (Or.inr hstate)]
          exact hsecond
        · rw [hconfl c hstate hce hcc]
          exact hconfl c hstate hce hcc

/-- Concrete instantiation of C7: the end-to-end scenario — message
`"+1555000111"` from channel `999` against the Asha visitor. -/
theorem claim_C7_chat_link_first_wins_witness :
    (∀ c, visitorW.telegramChatId = some c → c ≠ "" → c ≠ "999" →
      webhookEndpoint envNoFallbackW dbW ⟨some "999", some "+1555000111"⟩ false false
        = (dbW, { status := 200, ok := true }))
    ∧ (visitorW.telegramChatId = none ∨ visitorW.telegramChatId = some "999" →
      (webhookEndpoint envNoFallbackW dbW
          ⟨some "999", some "+1555000111"⟩ false false).1
          = linkChat dbW visitorW.id "999"
      ∧ (linkChat dbW visitorW.id "999").visitors.find?
          (fun v => v.phone = jsTrim "+1555000111"
            || v.patientIdPerCamp = jsTrim "+1555000111")
          = some { visitorW with telegramChatId := some "999" })
    ∧ webhookEndpoint envNoFallbackW
        (webhookEndpoint envNoFallbackW dbW
          ⟨some "999", some "+1555000111"⟩ false false).1
        ⟨some "999", some "+1555000111"⟩ false false
        = ((webhookEndpoint envNoFallbackW dbW
            ⟨some "999", some "+1555000111"⟩ false false).1,
           { status := 200, ok := true }) :=
  claim_C7_chat_link_first_wins envNoFallbackW dbW "999" "+1555000111" visitorW
    (by decide) (by decide) (by decide) (by decide) (by decide)

/-- Counterexample to C8 as frozen: when the visitor lookup throws (a plain
repository error during internal processing), the webhook handler has no
`try`/`catch` of its own — `asyncHandler` forwards the error to the global
`errorHandler`, and the provider receives a 500 error response instead of a
success acknowledgement. -/
theorem claim_C8_webhook_ack_counterexample :
    webhookEndpoint envNoFallbackW dbW updW true false
      = (dbW, { status := 500, ok := false }) := by
  decide

/-- Claim C8, amended: every inbound webhook event is acknowledged with
`200 { ok: true }` — for malformed updates, the `/start` command, unmatched
text, the conflict path and the linking path alike, and regardless of the
reply-send outcome (the send helper returns a boolean that the handler
discards, so reply failures never surface) — provided the repository
operations themselves do not throw; a thrown visitor lookup or save is
forwarded to the error middleware and surfaces an error status instead. -/
theorem claim_C8_webhook_ack_amended (env : TelegramEnv) (db : Db)
    (upd : TelegramUpdate) :
    ∃ db2, webhookEndpoint env db upd false false
      = (db2, { status := 200, ok := true }) := by
  have hok : ∃ db2,
      webhookHandler env db upd false false
        = .ok (db2, { status := 200, ok := true }) := by
    cases hf : jsStr? upd.fromId with
    | none => exact ⟨db, by simp [webhookHandler, hf]⟩
    | some chatId =>
      cases ht : jsStr? upd.text with
      | none => exact ⟨db, by simp [webhookHandler, hf, ht]⟩
      | some text =>
        by_cases hs : jsTrim text = "/start"
        · exact ⟨db, by simp [webhookHandler, hf, ht, hs]⟩
        · cases hfind : db.visitors.find?
              (fun v => v.phone = jsTrim text || v.patientIdPerCamp = jsTrim text) with
          | none => exact ⟨db, by simp [webhookHandler, hf, ht, hs, hfind]⟩
          | some visitor =>
            by_cases h2 : visitor.telegramChatId = some chatId
            · exact ⟨linkChat db visitor.id chatId,
                by simp [webhookHandler, hf, ht, hs, hfind, h2]⟩
            · by_cases h1 : jsTruthy visitor.telegramChatId = true
              · exact ⟨db, by simp [webhookHandler, hf, ht, hs, hfind, h1, h2]⟩
              · have h1f : jsTruthy visitor.telegramChatId = false := by
                  simpa using h1
                exact ⟨linkChat db visitor.id chatId,
                  by simp [webhookHandler, hf, ht, hs, hfind, h1f, h2]⟩
  obtain ⟨db2, h⟩ := hok
  exact ⟨db2, by simp [webhookEndpoint, h]⟩

theorem foldlLatest_some : ∀ (xs : List VisitRec) (w : VisitRec),
    ∃ u, xs.foldl (fun acc v =>
      match acc with
      | none => some v
      | some w2 => if w2.createdAt < v.createdAt then some v else some w2) (some w)
      = some u := by
  intro xs
  induction xs with
  | nil => intro w; exact ⟨w, rfl⟩
  | cons y ys ih =>
    intro w
    simp only [List.foldl_cons]
    by_cases hlt : w.createdAt < y.createdAt
    · simpa [hlt] using ih y
    · simpa [hlt] using ih w

theorem latestVisit_eq_none_iff (visits : List VisitRec) (vid cid : Nat) :
    latestVisit visits vid cid = none
      ↔ visits.filter (fun v => v.visitorId = vid && v.campId = cid) = [] := by
  unfold latestVisit
  cases hf : visits.filter (fun v => v.visitorId = vid && v.campId = cid) with
  | nil => simp
  | cons x xs =>
    simp only [List.foldl_cons]
    obtain ⟨u, hu⟩ := foldlLatest_some xs x
    simp [hu]

/-- Counterexample to C9 as frozen: the code creates a new visit only when
*no visit of any status* exists; with a single already-`COMPLETED` visit
there is no open visit, yet the QR scan creates nothing and returns the
completed visit. -/
theorem claim_C9_qr_checkin_counterexample :
    (dbCompletedW.visits.filter (fun v => specOpenVisit v)).length = 0
    ∧ (getVisitorByQR dbCompletedW (some 1) 5 70).1.visits = dbCompletedW.visits
    ∧ (getVisitorByQR dbCompletedW (some 1) 5 70).2 = .ok completedVisitW := by
  refine ⟨by decide, by decide, by decide⟩

/-- Claim C9, amended: the QR scan denies with `CrossTenantVisitor` whenever
the scanned visitor's camp differs from the acting doctor's camp; for a
visitor of the doctor's own camp it creates a `REGISTERED` visit exactly
when the visitor has *no visit at all* (of any status) in that camp — not
merely no open one —, and repeating the scan is idempotent: a second scan
never creates a duplicate visit. -/
theorem claim_C9_qr_checkin_amended (db : Db) (doctorCampId : Option Nat)
    (visitorId now : Nat) (visitor : VisitorRec)
    (hfound : db.visitors.find? (fun v => v.id = visitorId) = some visitor) :
    (doctorCampId ≠ some visitor.campId →
      getVisitorByQR db doctorCampId visitorId now = (db, .crossTenantVisitor))
    ∧ (doctorCampId = some visitor.campId →
        (db.visits.filter
            (fun v => v.visitorId = visitor.id && v.campId = visitor.campId) = [] →
          (getVisitorByQR db doctorCampId visitorId now).1.visits
            = db.visits ++ [newVisit db.nextId visitor.campId visitor.id now]
          ∧ (getVisitorByQR db doctorCampId visitorId now).2
              = .ok (newVisit db.nextId visitor.campId visitor.id now))
        ∧ (db.visits.filter
            (fun v => v.visitorId = visitor.id && v.campId = visitor.campId) ≠ [] →
          (getVisitorByQR db doctorCampId visitorId now).1 = db)
        ∧ (getVisitorByQR (getVisitorByQR db doctorCampId visitorId now).1
              doctorCampId visitorId now).1.visits.length
            = (getVisitorByQR db doctorCampId visitorId now).1.visits.length) := by
  constructor
  · intro hne
    have hne2 : some visitor.campId ≠ doctorCampId := fun h => hne h.symm
    simp [getVisitorByQR, hfound, hne2]
  · intro heq
    refine ⟨?_, ?_, ?_⟩
    · intro hempty
      have hlv : latestVisit db.visits visitor.id visitor.campId = none :=
        (latestVisit_eq_none_iff db.visits visitor.id visitor.campId).mpr hempty
      constructor <;> simp [getVisitorByQR, hfound, heq, hlv]
    · intro hne
      have hlv : latestVisit db.visits visitor.id visitor.campId ≠ none := by
        intro h
        exact hne ((latestVisit_eq_none_iff db.visits visitor.id visitor.campId).mp h)
      obtain ⟨w, hw⟩ := Option.ne_none_iff_exists'.mp hlv
      simp [getVisitorByQR, hfound, heq, hw]
    · cases hlv : latestVisit db.visits visitor.id visitor.campId with
      | some w =>
        have h1 : (getVisitorByQR db doctorCampId visitorId now).1 = db := by
          simp [getVisitorByQR, hfound, heq, hlv]
        rw [h1, h1]
      | none =>
        have h1 : (getVisitorByQR db doctorCampId visitorId now).1
            = { db with
                visits := db.visits
                  ++ [newVisit db.nextId visitor.campId visitor.id now]
                nextId := db.nextId + 1 } := by
          simp [getVisitorByQR, hfound, heq, hlv]
        rw [h1]
        have hne2 : (db.visits
            ++ [newVisit db.nextId visitor.campId visitor.id now]).filter
            (fun v => v.visitorId = visitor.id && v.campId = visitor.campId) ≠ [] := by
          rw [List.filter_append]
          simp [newVisit]
        have hlv2 : latestVisit
            (db.visits ++ [newVisit db.nextId visitor.campId visitor.id now])
            visitor.id visitor.campId ≠ none := by
          intro h
          exact hne2 ((latestVisit_eq_none_iff _ visitor.id visitor.campId).mp h)
        obtain ⟨w, hw⟩ := Option.ne_none_iff_exists'.mp hlv2
        simp [getVisitorByQR, hfound, heq, hw]

/-- Concrete instantiation of the amended C9: scanning Asha in her own camp. -/
theorem claim_C9_qr_checkin_amended_witness :
    dbW.visitors.find? (fun v => v.id = 5) = some visitorW
    ∧ (((some 1 : Option Nat) ≠ some visitorW.campId →
        getVisitorByQR dbW (some 1) 5 70 = (dbW, .crossTenantVisitor))
      ∧ ((some 1 : Option Nat) = some visitorW.campId →
          (dbW.visits.filter
              (fun v => v.visitorId = visitorW.id && v.campId = visitorW.campId) = [] →
            (getVisitorByQR dbW (some 1) 5 70).1.visits
              = dbW.visits ++ [newVisit dbW.nextId visitorW.campId visitorW.id 70]
            ∧ (getVisitorByQR dbW (some 1) 5 70).2
                = .ok (newVisit dbW.nextId visitorW.campId visitorW.id 70))
          ∧ (dbW.visits.filter
              (fun v => v.visitorId = visitorW.id && v.campId = visitorW.campId) ≠ [] →
            (getVisitorByQR dbW (some 1) 5 70).1 = dbW)
          ∧ (getVisitorByQR (getVisitorByQR dbW (some 1) 5 70).1
                (some 1) 5 70).1.visits.length
              = (getVisitorByQR dbW (some 1) 5 70).1.visits.length)) :=
  ⟨by decide, claim_C9_qr_checkin_amended dbW (some 1) 5 70 visitorW (by decide)⟩

/-- Claim C10: a login request without `campSlug` (absent or empty) looks
the user up by email alone among active users — with no role restriction —
and, when the password verifies, issues a token carrying that user's actual
role and home camp id; in particular a `CAMP_HEAD` or `DOCTOR` authenticates
through the slug-less (administrator) login path. -/
theorem claim_C10_slugless_login (verify : String → String → Bool)
    (users : List UserRec) (camps : List CampRec) (email password : String)
    (u : UserRec)
    (hfound : users.find? (fun x => x.email = email && x.isActive) = some u)
    (hpw : verify password u.passwordHash = true) :
    login verify users camps email password none = .token u.id u.role u.campId
    ∧ login verify users camps email password (some "")
        = .token u.id u.role u.campId := by
  constructor <;> simp [login, jsStr?, hfound, hpw]

/-- Concrete instantiation of C10: an active `DOCTOR` logging in with no
camp slug receives a token with role `DOCTOR` and their home camp id. -/
theorem claim_C10_slugless_login_witness :
    [doctorUserW].find? (fun x => x.email = "doc@example.com" && x.isActive)
      = some doctorUserW
    ∧ ((fun p h => p == "secret-pw" && h == "hash123") "secret-pw"
        doctorUserW.passwordHash) = true
    ∧ (login (fun p h => p == "secret-pw" && h == "hash123") [doctorUserW] []
          "doc@example.com" "secret-pw" none
        = .token doctorUserW.id doctorUserW.role doctorUserW.campId
      ∧ login (fun p h => p == "secret-pw" && h == "hash123") [doctorUserW] []
          "doc@example.com" "secret-pw" (some "")
        = .token doctorUserW.id doctorUserW.role doctorUserW.campId) :=
  ⟨by decide, by decide,
   claim_C10_slugless_login (fun p h => p == "secret-pw" && h == "hash123")
     [doctorUserW] [] "doc@example.com" "secret-pw" doctorUserW
     (by decide) (by decide)⟩

end MedicalCamp
